import Mathlib

/-!
# Verification of the moltworker gateway supervisor and WebSocket relay

Shallow embedding of `src/routes/public.ts` (the worker's gateway supervisor
`ensureMoltbotGateway` / `findExistingMoltbotProcess`, the error-message
translation `transformErrorMessage`, and the WebSocket relay's per-frame
message, close and error handlers).

External effects (`listProcesses`, `waitForPort`, `containerFetch`,
`startProcess`, `getLogs`) are modelled by an oracle structure
(`SandboxWorld`) recording the outcome of each call site; the supervisor then
becomes a pure function of that oracle.  JSON values are modelled by an
inductive `Json` type together with executable models of `JSON.parse` and
`JSON.stringify` (the subset relevant to the relayed frames: fractional /
exponent number literals and `\u` string escapes are not modelled — frames
using them are treated as unparseable, which makes the relay forward them
verbatim, the same fail-open behaviour the code has for genuinely
unparseable frames).
-/

set_option maxRecDepth 10000

namespace Moltworker

/-- `pat` occurs as a contiguous run inside `l`. -/
def listHasInfix (pat : List Char) : List Char → Bool
  | [] => pat.isEmpty
  | c :: cs => pat.isPrefixOf (c :: cs) || listHasInfix pat cs

/-- JS `String.prototype.includes` (substring containment). -/
def strIncludes (s pat : String) : Bool :=
  listHasInfix pat.data s.data

/-! ## JSON values -/

/-- JSON values as produced by `JSON.parse`.  Numbers are modelled as integers
(no relayed control frame uses fractional numbers; see module docstring).
Objects keep their members in insertion order, as JS objects do. -/
inductive Json where
  | null
  | bool (b : Bool)
  | num (n : Int)
  | str (s : String)
  | arr (elems : List Json)
  | obj (fields : List (String × Json))
deriving Repr, Inhabited

/-- Member lookup on a JS object's property list (first binding wins; the
parser already collapses duplicate keys the way `JSON.parse` does). -/
def getMember : List (String × Json) → String → Option Json
  | [], _ => none
  | (k, v) :: rest, key => if k = key then some v else getMember rest key

/-- `obj.key` member access: `undefined` (here `none`) on anything that is not
an object.  (On `null` the JS access throws, but every throw site in the relay
is wrapped in a `catch` that falls back to verbatim forwarding, which is the
same observable outcome as the `none` branch here.) -/
def getField : Json → String → Option Json
  | .obj fields, key => getMember fields key
  | _, _ => none

/-- Set (or overwrite in place) a member of a property list, preserving the
position of an existing key — JS property assignment semantics. -/
def setMember : List (String × Json) → String → Json → List (String × Json)
  | [], key, v => [(key, v)]
  | (k, w) :: rest, key, v =>
    if k = key then (key, v) :: rest else (k, w) :: setMember rest key v

/-- JS property assignment `target.key = v` in strict mode (the worker is an
ES module, hence strict): succeeds on objects; on an array it adds a non-index
expando property which `JSON.stringify` drops, so the serialised value is
unchanged; on a primitive it throws a `TypeError` (`none`). -/
def setField : Json → String → Json → Option Json
  | .obj fields, key, v => some (.obj (setMember fields key v))
  | .arr elems, _, _ => some (.arr elems)
  | _, _, _ => none

/-- Total property assignment, used where the source guarantees the target is
an object (identity on non-objects). -/
def setObjField (j : Json) (key : String) (v : Json) : Json :=
  match j with
  | .obj fields => .obj (setMember fields key v)
  | _ => j

/-- JS `delete target.key`: removes the property from an object; a no-op on
arrays and primitives (no index properties are ever deleted by the relay). -/
def deleteField : Json → String → Json
  | .obj fields, key => .obj (fields.filter fun f => f.1 ≠ key)
  | j, _ => j

/-- JS truthiness of a parsed JSON value (`NaN` cannot be produced by
`JSON.parse`). -/
def truthy : Json → Bool
  | .null => false
  | .bool b => b
  | .num n => n ≠ 0
  | .str s => s ≠ ""
  | .arr _ => true
  | .obj _ => true

/-! ## JSON.parse model -/

def isWsChar (c : Char) : Bool :=
  c = ' ' || c = '\n' || c = '\t' || c = '\r'

def skipWs : List Char → List Char
  | [] => []
  | c :: cs => if isWsChar c then skipWs cs else c :: cs

def isDigit (c : Char) : Bool := '0' ≤ c && c ≤ '9'

def digitsToNat (ds : List Char) : Nat :=
  ds.foldl (fun a c => a * 10 + (c.toNat - 48)) 0

/-- Escape sequences accepted inside JSON string literals (`\uXXXX` is not
modelled; a frame using it is treated as unparseable). -/
def escChar : Char → Option Char
  | 'n' => some '\n'
  | 't' => some '\t'
  | 'r' => some '\r'
  | 'b' => some (Char.ofNat 8)
  | 'f' => some (Char.ofNat 12)
  | '"' => some '"'
  | '\\' => some '\\'
  | '/' => some '/'
  | _ => none

/-- Parse the remainder of a JSON string literal (the opening quote has been
consumed); returns the decoded characters and the rest of the input. -/
def parseStringChars : List Char → Option (List Char × List Char)
  | [] => none
  | '"' :: rest => some ([], rest)
  | '\\' :: rest =>
    match rest with
    | [] => none
    | e :: rest2 =>
      match escChar e with
      | none => none
      | some c =>
        match parseStringChars rest2 with
        | none => none
        | some (s, r) => some (c :: s, r)
  | c :: rest =>
    if c.toNat < 32 then none
    else
      match parseStringChars rest with
      | none => none
      | some (s, r) => some (c :: s, r)

/-- Parse a JSON number (integer literals only; see module docstring). -/
def parseNumber (cs : List Char) : Option (Json × List Char) :=
  match cs with
  | '-' :: rest =>
    let ds := rest.takeWhile isDigit
    if ds.isEmpty then none
    else
      match rest.drop ds.length with
      | '.' :: _ => none
      | 'e' :: _ => none
      | 'E' :: _ => none
      | rest2 => some (.num (-(Int.ofNat (digitsToNat ds))), rest2)
  | _ =>
    let ds := cs.takeWhile isDigit
    if ds.isEmpty then none
    else
      match cs.drop ds.length with
      | '.' :: _ => none
      | 'e' :: _ => none
      | 'E' :: _ => none
      | rest2 => some (.num (Int.ofNat (digitsToNat ds)), rest2)

mutual

/-- Fuel-based JSON value parser. -/
def parseValue : Nat → List Char → Option (Json × List Char)
  | 0, _ => none
  | fuel + 1, cs =>
    match skipWs cs with
    | [] => none
    | '{' :: rest =>
      (match skipWs rest with
       | '}' :: r2 => some (.obj [], r2)
       | r2 => parseMembers fuel r2 [])
    | '[' :: rest =>
      (match skipWs rest with
       | ']' :: r2 => some (.arr [], r2)
       | r2 => parseElems fuel r2 [])
    | '"' :: rest =>
      (match parseStringChars rest with
       | none => none
       | some (s, r) => some (.str (String.mk s), r))
    | 't' :: rest =>
      if rest.take 3 = ['r', 'u', 'e'] then some (.bool true, rest.drop 3) else none
    | 'f' :: rest =>
      if rest.take 4 = ['a', 'l', 's', 'e'] then some (.bool false, rest.drop 4) else none
    | 'n' :: rest =>
      if rest.take 3 = ['u', 'l', 'l'] then some (.null, rest.drop 3) else none
    | cs2 => parseNumber cs2

/-- Parse the members of a JSON object (after `{`, at least one member).
Duplicate keys overwrite in place, as `JSON.parse` does. -/
def parseMembers : Nat → List Char → List (String × Json) → Option (Json × List Char)
  | 0, _, _ => none
  | fuel + 1, cs, acc =>
    match skipWs cs with
    | '"' :: rest =>
      (match parseStringChars rest with
       | none => none
       | some (key, r1) =>
         match skipWs r1 with
         | ':' :: r2 =>
           (match parseValue fuel r2 with
            | none => none
            | some (v, r3) =>
              let acc2 := setMember acc (String.mk key) v
              match skipWs r3 with
              | ',' :: r4 => parseMembers fuel r4 acc2
              | '}' :: r4 => some (.obj acc2, r4)
              | _ => none)
         | _ => none)
    | _ => none

/-- Parse the elements of a JSON array (after `[`, at least one element). -/
def parseElems : Nat → List Char → List Json → Option (Json × List Char)
  | 0, _, _ => none
  | fuel + 1, cs, acc =>
    match parseValue fuel cs with
    | none => none
    | some (v, r1) =>
      match skipWs r1 with
      | ',' :: r2 => parseElems fuel r2 (acc ++ [v])
      | ']' :: r2 => some (.arr (acc ++ [v]), r2)
      | _ => none

end

/-- Model of `JSON.parse`: `none` models a thrown `SyntaxError`. -/
def jsonParse (s : String) : Option Json :=
  match parseValue (2 * s.data.length + 4) s.data with
  | none => none
  | some (j, rest) => if skipWs rest = [] then some j else none

/-! ## JSON.stringify model -/

def hexDigitChar (n : Nat) : Char :=
  if n < 10 then Char.ofNat (48 + n) else Char.ofNat (97 + n - 10)

def escapeJsonChar (c : Char) : String :=
  if c = '"' then "\\\""
  else if c = '\\' then "\\\\"
  else if c = '\n' then "\\n"
  else if c = '\r' then "\\r"
  else if c = '\t' then "\\t"
  else if c.toNat = 8 then "\\b"
  else if c.toNat = 12 then "\\f"
  else if c.toNat < 32 then
    "\\u00" ++ String.mk [hexDigitChar (c.toNat / 16), hexDigitChar (c.toNat % 16)]
  else String.singleton c

def escapeJsonString (s : String) : String :=
  "\"" ++ String.join (s.data.map escapeJsonChar) ++ "\""

def joinComma : List String → String
  | [] => ""
  | [s] => s
  | s :: ss => s ++ "," ++ joinComma ss

mutual

/-- Model of `JSON.stringify` on parsed values. -/
def jsonStringify : Json → String
  | .null => "null"
  | .bool true => "true"
  | .bool false => "false"
  | .num n => toString n
  | .str s => escapeJsonString s
  | .arr elems => "[" ++ joinComma (stringifyElems elems) ++ "]"
  | .obj fields => "\x7b" ++ joinComma (stringifyMembers fields) ++ "\x7d"

def stringifyElems : List Json → List String
  | [] => []
  | x :: xs => jsonStringify x :: stringifyElems xs

def stringifyMembers : List (String × Json) → List String
  | [] => []
  | (k, v) :: fs => (escapeJsonString k ++ ":" ++ jsonStringify v) :: stringifyMembers fs

end

/-! ## transformErrorMessage (index.ts lines 389-399) -/

/-- `transformErrorMessage(message, host)`: rewrite gateway error text to a
user-facing hint via substring matching. -/
def transformErrorMessage (message host : String) : String :=
  if strIncludes message "gateway token missing" || strIncludes message "gateway token mismatch" then
    "Invalid or missing token. Visit https://" ++ host ++ "?token=\x7bREPLACE_WITH_YOUR_TOKEN\x7d"
  else if strIncludes message "pairing required" then
    "Pairing required. Visit https://" ++ host ++ "/_admin/"
  else
    message

/-! ## WebSocket relay per-frame handlers (index.ts lines 643-713) -/

/-- A WebSocket frame as seen by the relay listeners: a text frame or a
binary frame. -/
inductive WireFrame where
  | str (s : String)
  | bin (bytes : List Nat)
deriving Repr, DecidableEq

/-- `msg.type === 'req' && msg.method === 'connect'` on a parsed frame. -/
def isConnectJson (msg : Json) : Bool :=
  (match getField msg "type" with
   | some (.str t) => t = "req"
   | _ => false)
  &&
  (match getField msg "method" with
   | some (.str m) => m = "connect"
   | _ => false)

def connectAuthJson (gatewayToken : String) : Json :=
  .obj [("token", .str gatewayToken)]

/-- The four `delete msg.params.*` statements (lines 657-660). -/
def stripDeviceIdentity (params : Json) : Json :=
  deleteField (deleteField (deleteField (deleteField params
    "deviceId") "devicePublicKey") "signature") "device"

/-- The connect-frame mutation (lines 655-662):
`msg.params = msg.params || {}`, delete the device-identity fields, then
`msg.params.auth = { token: gatewayToken }`.  `none` models the strict-mode
`TypeError` thrown when `params` is a truthy primitive (caught by the
surrounding `catch`, which makes the listener fall through to verbatim
forwarding). -/
def rewriteConnect (gatewayToken : String) (msg : Json) : Option Json :=
  let params0 :=
    match getField msg "params" with
    | some p => if truthy p then p else .obj []
    | none => .obj []
  let params1 := stripDeviceIdentity params0
  match setField params1 "auth" (connectAuthJson gatewayToken) with
  | some params2 => some (setObjField msg "params" params2)
  | none => none

/-- The `serverWs` (client → backend) message listener (lines 643-673): when a
gateway token is configured and a text frame parses as a connect request, the
rewritten frame is sent; every other frame is sent verbatim (`event.data`).
The `readyState === OPEN` guard is not modelled: the result is the frame that
is sent when the peer socket is open. -/
def handleClientFrame (gatewayToken : Option String) (frame : WireFrame) : WireFrame :=
  match frame, gatewayToken with
  | .str s, some token =>
    (match jsonParse s with
     | some msg =>
       if isConnectJson msg then
         match rewriteConnect token msg with
         | some msg2 => .str (jsonStringify msg2)
         | none => .str s
       else .str s
     | none => .str s)
  | f, _ => f

/-- The client → backend direction as a whole: the listener fires once per
received frame, in order. -/
def relayClientFrames (gatewayToken : Option String) (frames : List WireFrame) : List WireFrame :=
  frames.map (handleClientFrame gatewayToken)

/-- The `containerWs` (backend → client) message listener (lines 676-699):
a text frame that parses and has a truthy `error.message` gets the message
rewritten through `transformErrorMessage` and is re-serialised; every other
frame is forwarded verbatim.  A truthy non-string `error.message` makes
`transformErrorMessage` throw (`includes` is not a function), which the
surrounding `catch` turns into verbatim forwarding — same as the fall-through
branches here. -/
def handleContainerFrame (host : String) (frame : WireFrame) : WireFrame :=
  match frame with
  | .bin b => .bin b
  | .str s =>
    match jsonParse s with
    | none => .str s
    | some parsed =>
      match getField parsed "error" with
      | none => .str s
      | some errVal =>
        match getField errVal "message" with
        | some (.str m) =>
          if m = "" then .str s
          else
            .str (jsonStringify (setObjField parsed "error"
              (setObjField errVal "message" (.str (transformErrorMessage m host)))))
        | _ => .str s

/-- The backend → client direction as a whole. -/
def relayContainerFrames (host : String) (frames : List WireFrame) : List WireFrame :=
  frames.map (handleContainerFrame host)

/-! ## Relay close / error propagation (index.ts lines 702-713) -/

/-- `serverWs` close listener: `containerWs.close(e.code, e.reason)` —
code and reason forwarded verbatim. -/
def serverCloseHandler (e : Nat × String) : Nat × String :=
  (e.1, e.2)

/-- Reason-length cap applied before `serverWs.close` (line 709). -/
def truncateReason (reason : String) : String :=
  if reason.length > 123 then String.mk (reason.data.take 120) ++ "..." else reason

/-- `containerWs` close listener: reason passed through
`transformErrorMessage` and capped, code preserved. -/
def containerCloseHandler (host : String) (e : Nat × String) : Nat × String :=
  (e.1, truncateReason (transformErrorMessage e.2 host))

/-- `serverWs` error listener: `containerWs.close(1011, 'Client error')`. -/
def serverErrorHandler : Nat × String := (1011, "Client error")

/-- `containerWs` error listener: `serverWs.close(1011, 'Container error')`. -/
def containerErrorHandler : Nat × String := (1011, "Container error")

/-! ## Gateway supervisor (gateway.ts lines 188-352) -/

/-- Process lifecycle status as reported by the sandbox runtime. -/
inductive ProcStatus where
  | starting
  | running
  | completed
  | failed
  | killed
deriving Repr, DecidableEq

/-- A sandbox process entry (`id`, `command`, `status`). -/
structure Proc where
  id : Nat
  command : String
  status : ProcStatus
deriving Repr, DecidableEq

/-- `proc.command.includes('start-moltbot.sh') || proc.command.includes('openclaw gateway')` -/
def isGatewayProcess (command : String) : Bool :=
  strIncludes command "start-moltbot.sh" || strIncludes command "openclaw gateway"

/-- `proc.command.includes('openclaw devices') || proc.command.includes('openclaw --version')` -/
def isCliCommand (command : String) : Bool :=
  strIncludes command "openclaw devices" || strIncludes command "openclaw --version"

/-- The per-entry test of the discovery loop (lines 191-205): gateway-launch
command pattern, not a CLI invocation, status `starting` or `running`. -/
def moltbotProcMatch (p : Proc) : Bool :=
  isGatewayProcess p.command && !isCliCommand p.command
    && (p.status = .starting || p.status = .running)

/-- `findExistingMoltbotProcess` (lines 188-210): first matching entry of the
process listing; a failed `listProcesses` is caught and yields `null`. -/
def findExistingMoltbotProcess : Except String (List Proc) → Option Proc
  | .error _ => none
  | .ok processes => processes.find? moltbotProcMatch

/-- Outcome of one `waitForPort` call: the port opened within the timeout, or
the call threw (timeout) with the given error message. -/
inductive PortWaitOutcome where
  | opened
  | timeout (errMsg : String)
deriving Repr, DecidableEq

/-- Outcome of one `containerFetch` call: an HTTP response with the given
status, or a thrown fetch error. -/
inductive FetchOutcome where
  | ok (status : Nat)
  | failed
deriving Repr, DecidableEq

/-- Outcome of one `getLogs` call. -/
inductive LogsOutcome where
  | ok (stdout stderr : String)
  | failed (errMsg : String)
deriving Repr, DecidableEq

/-- Oracle for the external calls `ensureMoltbotGateway` makes, one field per
call site (fields for call sites that a given run never reaches are simply
unused).  `mountR2Storage` (line 227) and the stale-process cleanup kills
(lines 282-293, best-effort, failures caught) do not influence the returned
value and are not recorded. -/
structure SandboxWorld where
  /-- `listProcesses` as seen by the discovery step (line 190). -/
  processes : Except String (List Proc)
  /-- `existingProcess.waitForPort` (line 239). -/
  existingWait : PortWaitOutcome
  /-- `containerFetch` probing the existing process (line 248). -/
  existingFetch : FetchOutcome
  /-- `startProcess` (line 303); `.error` models a thrown start failure,
  which is rethrown (lines 307-310). -/
  startResult : Except String Proc
  /-- `process.waitForPort` on the newly launched process (line 315). -/
  launchWait : PortWaitOutcome
  /-- `process.getLogs` on the success path (line 318). -/
  launchLogs : LogsOutcome
  /-- `process.getLogs` inside the failure catch (line 324). -/
  launchLogsOnFailure : LogsOutcome
  /-- `containerFetch` verifying the newly launched process (line 338). -/
  launchFetch : FetchOutcome
deriving Repr

/-- What one `ensureMoltbotGateway` call did: its return value (or thrown
error message), whether a kill of the discovered existing process was
attempted, and whether the launch path was taken. -/
structure EnsureTrace where
  result : Except String Proc
  killedExisting : Bool
  launchAttempted : Bool
deriving Repr

/-- The launch path of `ensureMoltbotGateway` (lines 277-351): stale-process
cleanup (not value-relevant), `startProcess`, `waitForPort`, `getLogs`, then
the overlay-network `containerFetch` verification.

Control-flow notes mirrored from the source:
* If `waitForPort` or the success-path `getLogs` throws `e` (lines 313-321),
  the catch (lines 321-331) calls `getLogs` again; on success it constructs
  and throws ``Moltbot gateway failed to start. Stderr: ...`` — but that
  `throw` is inside the same `try` whose `catch (logErr)` replaces it with
  `throw e`, so the original error `e` is what propagates in *both* branches
  and the stderr-carrying message never reaches the caller.
* In the verification step, the ``... (500)`` error thrown on a 500 status
  (line 343) is caught by `catch (fetchErr)` (line 346), which rethrows the
  ``may be bound to loopback`` error — so a 500 status and a thrown fetch
  both surface that same final message. -/
def launchGateway (w : SandboxWorld) (killedExisting : Bool) : EnsureTrace :=
  match w.startResult with
  | .error startErr => ⟨.error startErr, killedExisting, true⟩
  | .ok process =>
    match w.launchWait with
    | .timeout errMsg =>
      (match w.launchLogsOnFailure with
       | .ok _stdout _stderr => ⟨.error errMsg, killedExisting, true⟩
       | .failed _ => ⟨.error errMsg, killedExisting, true⟩)
    | .opened =>
      match w.launchLogs with
      | .failed logsErr =>
        (match w.launchLogsOnFailure with
         | .ok _stdout _stderr => ⟨.error logsErr, killedExisting, true⟩
         | .failed _ => ⟨.error logsErr, killedExisting, true⟩)
      | .ok _stdout _stderr =>
        match w.launchFetch with
        | .ok status =>
          if status = 500 then
            ⟨.error "Gateway started but not reachable via sandbox network (may be bound to loopback)",
              killedExisting, true⟩
          else ⟨.ok process, killedExisting, true⟩
        | .failed =>
          ⟨.error "Gateway started but not reachable via sandbox network (may be bound to loopback)",
            killedExisting, true⟩

/-- `ensureMoltbotGateway` (lines 224-352).  On a discovered existing process:
wait for its TCP port, then probe it over the overlay network via
`containerFetch`; a non-500 response returns the process; a 500 response
throws (caught by the inner catch), and like a thrown fetch it leads to a
best-effort kill and a fall-through to the launch path; a `waitForPort`
timeout likewise kills and falls through.  With no existing process, the
launch path is taken directly. -/
def ensureMoltbotGateway (w : SandboxWorld) : EnsureTrace :=
  match findExistingMoltbotProcess w.processes with
  | some existingProcess =>
    (match w.existingWait with
     | .opened =>
       (match w.existingFetch with
        | .ok status =>
          if status = 500 then launchGateway w true
          else ⟨.ok existingProcess, false, false⟩
        | .failed => launchGateway w true)
     | .timeout _ => launchGateway w true)
  | none => launchGateway w false

/-! ## Auxiliary definitions used by the theorems -/

/-- The member-list form of `stripDeviceIdentity` on an object's fields. -/
def stripMembers (fs : List (String × Json)) : List (String × Json) :=
  ((((fs.filter fun f => f.1 ≠ "deviceId").filter
      fun f => f.1 ≠ "devicePublicKey").filter
      fun f => f.1 ≠ "signature").filter
      fun f => f.1 ≠ "device")

/-- A connect frame's `params` member is "rewritable" when the mutation in the
listener completes without throwing and without its effect being dropped:
`params` absent, falsy (replaced by `{}`), or itself an object.  A truthy
non-object `params` either raises a strict-mode `TypeError` (primitive) or has
the injected `auth` property dropped by `JSON.stringify` (array). -/
def paramsRewritable (msg : Json) : Bool :=
  match getField msg "params" with
  | none => true
  | some (.obj _) => true
  | some p => !truthy p

/-- A process entry as the startup script launches it. -/
def runningGatewayProc : Proc :=
  ⟨1, "/usr/local/bin/start-moltbot.sh", .running⟩

/-- A freshly started process entry. -/
def freshGatewayProc : Proc :=
  ⟨2, "/usr/local/bin/start-moltbot.sh", .starting⟩

/-- An oracle in which the discovered existing process verifies cleanly
(TCP port opens, overlay probe answers 200). -/
def verifiedExistingWorld : SandboxWorld where
  processes := .ok [runningGatewayProc]
  existingWait := .opened
  existingFetch := .ok 200
  startResult := .ok freshGatewayProc
  launchWait := .opened
  launchLogs := .ok "" ""
  launchLogsOnFailure := .ok "" ""
  launchFetch := .ok 200

/-- An oracle with no existing process in which the launched process never
opens its port, while the catch-path `getLogs` succeeds with a non-empty
stderr. -/
def launchTimeoutWorld : SandboxWorld where
  processes := .ok []
  existingWait := .opened
  existingFetch := .ok 200
  startResult := .ok freshGatewayProc
  launchWait := .timeout "waitForPort: timed out after 20000 ms"
  launchLogs := .ok "" ""
  launchLogsOnFailure := .ok "" "Error: listen EADDRNOTAVAIL"
  launchFetch := .ok 200

/-- An oracle with no existing process in which the launched process opens
its port but the immediately following `getLogs` call throws. -/
def logsFailWorld : SandboxWorld where
  processes := .ok []
  existingWait := .opened
  existingFetch := .ok 200
  startResult := .ok freshGatewayProc
  launchWait := .opened
  launchLogs := .failed "getLogs failed: container terminated"
  launchLogsOnFailure := .failed "getLogs failed: container terminated"
  launchFetch := .ok 200

/-- An oracle in which `listProcesses` throws during discovery. -/
def discoveryErrorWorld : SandboxWorld where
  processes := .error "listProcesses: internal error"
  existingWait := .opened
  existingFetch := .ok 200
  startResult := .ok freshGatewayProc
  launchWait := .opened
  launchLogs := .ok "" ""
  launchLogsOnFailure := .ok "" ""
  launchFetch := .ok 200

/-! ## Helper lemmas -/

theorem getMember_setMember_self (fs : List (String × Json)) (key : String) (v : Json) :
    getMember (setMember fs key v) key = some v := by
  induction fs with
  | nil => simp [setMember, getMember]
  | cons kv rest ih =>
    obtain ⟨k, w⟩ := kv
    by_cases h : k = key
    · simp [setMember, h, getMember]
    · simp [setMember, h, getMember, ih]

theorem getMember_setMember_ne (fs : List (String × Json)) (key key' : String) (v : Json)
    (h : key' ≠ key) :
    getMember (setMember fs key v) key' = getMember fs key' := by
  have hk' : ¬key = key' := fun hh => h hh.symm
  induction fs with
  | nil => simp [setMember, getMember, hk']
  | cons kv rest ih =>
    obtain ⟨k, w⟩ := kv
    by_cases hk : k = key
    · subst hk
      simp [setMember, getMember, hk']
    · simp [setMember, hk, getMember, ih]

theorem getMember_eq_none_iff (fs : List (String × Json)) (key : String) :
    getMember fs key = none ↔ ∀ kv ∈ fs, kv.1 ≠ key := by
  induction fs with
  | nil => simp [getMember]
  | cons kv rest ih =>
    obtain ⟨k, w⟩ := kv
    by_cases h : k = key
    · simp [getMember, h]
    · simp [getMember, h, ih]

theorem getMember_filterKey (fs : List (String × Json)) (key : String) :
    getMember (fs.filter fun f => f.1 ≠ key) key = none := by
  rw [getMember_eq_none_iff]
  intro kv hkv
  simp only [List.mem_filter, decide_eq_true_eq] at hkv
  exact hkv.2

theorem getMember_filter_none (fs : List (String × Json)) (p : String × Json → Bool)
    (key : String) (h : getMember fs key = none) :
    getMember (fs.filter p) key = none := by
  rw [getMember_eq_none_iff] at h ⊢
  intro kv hkv
  exact h kv (List.mem_filter.mp hkv).1

theorem stripMembers_props (fs : List (String × Json)) (token : String) :
    getMember (setMember (stripMembers fs) "auth" (connectAuthJson token)) "auth" =
      some (connectAuthJson token)
    ∧ getMember (setMember (stripMembers fs) "auth" (connectAuthJson token)) "deviceId" = none
    ∧ getMember (setMember (stripMembers fs) "auth" (connectAuthJson token)) "devicePublicKey" = none
    ∧ getMember (setMember (stripMembers fs) "auth" (connectAuthJson token)) "signature" = none
    ∧ getMember (setMember (stripMembers fs) "auth" (connectAuthJson token)) "device" = none := by
  unfold stripMembers
  refine ⟨getMember_setMember_self _ _ _, ?_, ?_, ?_, ?_⟩
  · rw [getMember_setMember_ne _ _ _ _ (by decide)]
    exact getMember_filter_none _ _ _ (getMember_filter_none _ _ _
      (getMember_filter_none _ _ _ (getMember_filterKey _ _)))
  · rw [getMember_setMember_ne _ _ _ _ (by decide)]
    exact getMember_filter_none _ _ _ (getMember_filter_none _ _ _ (getMember_filterKey _ _))
  · rw [getMember_setMember_ne _ _ _ _ (by decide)]
    exact getMember_filter_none _ _ _ (getMember_filterKey _ _)
  · rw [getMember_setMember_ne _ _ _ _ (by decide)]
    exact getMember_filterKey _ _

theorem launchGateway_launchAttempted (w : SandboxWorld) (k : Bool) :
    (launchGateway w k).launchAttempted = true := by
  unfold launchGateway
  cases w.startResult with
  | error e => rfl
  | ok p =>
    cases w.launchWait with
    | timeout m => cases w.launchLogsOnFailure <;> rfl
    | opened =>
      cases w.launchLogs with
      | failed e => cases w.launchLogsOnFailure <;> rfl
      | ok so se =>
        cases w.launchFetch with
        | ok s =>
          by_cases h : s = 500 <;> simp [h]
        | failed => rfl

theorem launchGateway_killedExisting (w : SandboxWorld) (k : Bool) :
    (launchGateway w k).killedExisting = k := by
  unfold launchGateway
  cases w.startResult with
  | error e => rfl
  | ok p =>
    cases w.launchWait with
    | timeout m => cases w.launchLogsOnFailure <;> rfl
    | opened =>
      cases w.launchLogs with
      | failed e => cases w.launchLogsOnFailure <;> rfl
      | ok so se =>
        cases w.launchFetch with
        | ok s =>
          by_cases h : s = 500 <;> simp [h]
        | failed => rfl

theorem stripDeviceIdentity_obj (fs : List (String × Json)) :
    stripDeviceIdentity (.obj fs) = .obj (stripMembers fs) := rfl

theorem rewriteConnect_shape (token : String) (msg : Json)
    (hp : paramsRewritable msg = true) :
    ∃ fs0 : List (String × Json),
      rewriteConnect token msg =
        some (setObjField msg "params"
          (.obj (setMember (stripMembers fs0) "auth" (connectAuthJson token)))) := by
  unfold rewriteConnect
  cases hparams : getField msg "params" with
  | none => exact ⟨[], rfl⟩
  | some p =>
    unfold paramsRewritable at hp
    rw [hparams] at hp
    cases p with
    | obj fs => exact ⟨fs, rfl⟩
    | null => exact ⟨[], rfl⟩
    | bool b =>
      have hb : b = false := by simpa [truthy] using hp
      subst hb
      exact ⟨[], rfl⟩
    | num n =>
      have hn : n = 0 := by simpa [truthy] using hp
      subst hn
      exact ⟨[], rfl⟩
    | str s =>
      have hs : s = "" := by simpa [truthy] using hp
      subst hs
      exact ⟨[], rfl⟩
    | arr es =>
      simp [truthy] at hp

theorem truncateReason_length_le (r : String) :
    (truncateReason r).length ≤ 123 := by
  unfold truncateReason
  split
  · have h1 : (String.mk (r.data.take 120) ++ "...").length =
        (r.data.take 120).length + 3 := by
      rw [String.length_append]
      rfl
    rw [h1]
    have := List.length_take_le 120 r.data
    omega
  · omega

theorem ensureMoltbotGateway_cases (w : SandboxWorld) :
    (∃ k, ensureMoltbotGateway w = launchGateway w k)
    ∨ (∃ p, findExistingMoltbotProcess w.processes = some p ∧
        ensureMoltbotGateway w = ⟨.ok p, false, false⟩ ∧ w.existingWait = .opened ∧
        ∃ s, w.existingFetch = .ok s ∧ s ≠ 500) := by
  unfold ensureMoltbotGateway
  cases hfind : findExistingMoltbotProcess w.processes with
  | none => exact Or.inl ⟨false, rfl⟩
  | some p =>
    cases hew : w.existingWait with
    | timeout m => exact Or.inl ⟨true, rfl⟩
    | opened =>
      cases hef : w.existingFetch with
      | failed => exact Or.inl ⟨true, rfl⟩
      | ok s =>
        by_cases h500 : s = 500
        · subst h500
          exact Or.inl ⟨true, by simp⟩
        · exact Or.inr ⟨p, rfl, by simp [h500], rfl, s, rfl, h500⟩

theorem launchGateway_loopback (w : SandboxWorld) (k : Bool) (q : Proc)
    (stdout stderr : String)
    (hstart : w.startResult = .ok q) (hwait : w.launchWait = .opened)
    (hlogs : w.launchLogs = .ok stdout stderr)
    (hfetch : w.launchFetch = .failed ∨ w.launchFetch = .ok 500) :
    (launchGateway w k).result =
      .error "Gateway started but not reachable via sandbox network (may be bound to loopback)" := by
  unfold launchGateway
  rw [hstart, hwait, hlogs]
  rcases hfetch with h | h
  · rw [h]
  · rw [h]
    simp

theorem launchGateway_ok_imp_fetch (w : SandboxWorld) (k : Bool) (q : Proc)
    (h : (launchGateway w k).result = Except.ok q) :
    ∃ s, w.launchFetch = .ok s ∧ s ≠ 500 := by
  unfold launchGateway at h
  cases hsr : w.startResult with
  | error e => rw [hsr] at h; simp at h
  | ok p =>
    rw [hsr] at h
    cases hlw : w.launchWait with
    | timeout m =>
      rw [hlw] at h
      cases hlf : w.launchLogsOnFailure <;> rw [hlf] at h <;> simp at h
    | opened =>
      rw [hlw] at h
      cases hll : w.launchLogs with
      | failed e =>
        rw [hll] at h
        cases hlf : w.launchLogsOnFailure <;> rw [hlf] at h <;> simp at h
      | ok so se =>
        rw [hll] at h
        cases hfe : w.launchFetch with
        | failed => rw [hfe] at h; simp at h
        | ok s =>
          rw [hfe] at h
          by_cases h500 : s = 500
          · subst h500; simp at h
          · exact ⟨s, rfl, h500⟩

theorem launchGateway_ok_imp_logs (w : SandboxWorld) (k : Bool) (q : Proc)
    (h : (launchGateway w k).result = Except.ok q) :
    ∃ stdout stderr, w.launchLogs = .ok stdout stderr := by
  unfold launchGateway at h
  cases hsr : w.startResult with
  | error e => rw [hsr] at h; simp at h
  | ok p =>
    rw [hsr] at h
    cases hlw : w.launchWait with
    | timeout m =>
      rw [hlw] at h
      cases hlf : w.launchLogsOnFailure <;> rw [hlf] at h <;> simp at h
    | opened =>
      rw [hlw] at h
      cases hll : w.launchLogs with
      | failed e =>
        rw [hll] at h
        cases hlf : w.launchLogsOnFailure <;> rw [hlf] at h <;> simp at h
      | ok so se => exact ⟨so, se, rfl⟩

theorem launchGateway_logsFailed (w : SandboxWorld) (k : Bool) (q : Proc) (logsErr : String)
    (hstart : w.startResult = .ok q) (hwait : w.launchWait = .opened)
    (hlogs : w.launchLogs = .failed logsErr) :
    (launchGateway w k).result = .error logsErr := by
  unfold launchGateway
  rw [hstart, hwait, hlogs]
  cases hlf : w.launchLogsOnFailure <;> simp

/-! ## Claim theorems -/

/-- C1: for an existing gateway process found by discovery,
`ensureMoltbotGateway` returns that process (without killing it or launching)
exactly when the TCP port wait succeeds within the startup timeout and the
overlay-network `containerFetch` probe completes with an HTTP status other
than 500; on a TCP timeout, a 500 response, or a thrown probe, a kill of the
process is attempted and a fresh launch is attempted instead. -/
theorem ensure_existing_verified_iff (w : SandboxWorld) (p : Proc)
    (hfind : findExistingMoltbotProcess w.processes = some p) :
    (((ensureMoltbotGateway w).launchAttempted = false ∧
        (ensureMoltbotGateway w).result = .ok p ∧
        (ensureMoltbotGateway w).killedExisting = false) ↔
      (w.existingWait = .opened ∧ ∃ s, w.existingFetch = .ok s ∧ s ≠ 500))
    ∧ ((w.existingWait ≠ .opened ∨ w.existingFetch = .failed ∨ w.existingFetch = .ok 500) →
        (ensureMoltbotGateway w).killedExisting = true ∧
          (ensureMoltbotGateway w).launchAttempted = true) := by
  unfold ensureMoltbotGateway
  rw [hfind]
  cases hew : w.existingWait with
  | timeout m => simp [launchGateway_launchAttempted, launchGateway_killedExisting]
  | opened =>
    cases hef : w.existingFetch with
    | failed => simp [launchGateway_launchAttempted, launchGateway_killedExisting]
    | ok s =>
      by_cases h500 : s = 500
      · subst h500
        simp [launchGateway_launchAttempted, launchGateway_killedExisting]
      · simp [h500]

/-- Witness for C1 at a concrete oracle: an existing process whose probe
answers 200 is returned without kill or launch. -/
theorem ensure_existing_verified_iff_witness :
    ((ensureMoltbotGateway verifiedExistingWorld).launchAttempted = false ∧
      (ensureMoltbotGateway verifiedExistingWorld).result = .ok runningGatewayProc ∧
      (ensureMoltbotGateway verifiedExistingWorld).killedExisting = false) ↔
    (verifiedExistingWorld.existingWait = .opened ∧
      ∃ s, verifiedExistingWorld.existingFetch = .ok s ∧ s ≠ 500) :=
  (ensure_existing_verified_iff verifiedExistingWorld runningGatewayProc rfl).1

/-- C2: `ensureMoltbotGateway` never returns a loopback-only process.  An
existing process whose port is open but whose overlay probe fails or answers
500 is killed and superseded by a launch attempt; on the launch path, a new
process whose post-launch probe fails or answers 500 makes the call throw
the "started but not reachable" error; and any process returned from the
launch path had a probe response with a non-500 status. -/
theorem ensure_never_returns_loopback (w : SandboxWorld) :
    (∀ p, findExistingMoltbotProcess w.processes = some p →
        w.existingWait = .opened →
        (w.existingFetch = .failed ∨ w.existingFetch = .ok 500) →
        (ensureMoltbotGateway w).killedExisting = true ∧
          (ensureMoltbotGateway w).launchAttempted = true)
    ∧ (∀ q stdout stderr, w.startResult = .ok q → w.launchWait = .opened →
        w.launchLogs = .ok stdout stderr →
        (w.launchFetch = .failed ∨ w.launchFetch = .ok 500) →
        (ensureMoltbotGateway w).launchAttempted = true →
        (ensureMoltbotGateway w).result =
          .error "Gateway started but not reachable via sandbox network (may be bound to loopback)")
    ∧ (∀ q, (ensureMoltbotGateway w).result = .ok q →
        (ensureMoltbotGateway w).launchAttempted = true →
        ∃ s, w.launchFetch = .ok s ∧ s ≠ 500) := by
  refine ⟨?_, ?_, ?_⟩
  · intro p hfind hew hef
    unfold ensureMoltbotGateway
    rw [hfind, hew]
    rcases hef with h | h <;> rw [h] <;>
      simp [launchGateway_launchAttempted, launchGateway_killedExisting]
  · intro q stdout stderr hstart hwait hlogs hfetch hattempt
    rcases ensureMoltbotGateway_cases w with ⟨k, hk⟩ | ⟨p, _, heq, _⟩
    · rw [hk]
      exact launchGateway_loopback w k q stdout stderr hstart hwait hlogs hfetch
    · rw [heq] at hattempt
      simp at hattempt
  · intro q hok hattempt
    rcases ensureMoltbotGateway_cases w with ⟨k, hk⟩ | ⟨p, _, heq, _⟩
    · rw [hk] at hok
      exact launchGateway_ok_imp_fetch w k q hok
    · rw [heq] at hattempt
      simp at hattempt

/-- Witness for C2 at concrete oracles: an existing process whose probe
answers 500 is killed and a launch attempted; a launched process whose
post-launch probe answers 500 yields the "started but not reachable"
error. -/
theorem ensure_never_returns_loopback_witness :
    ((ensureMoltbotGateway { verifiedExistingWorld with existingFetch := .ok 500 }).killedExisting = true ∧
      (ensureMoltbotGateway { verifiedExistingWorld with existingFetch := .ok 500 }).launchAttempted = true)
    ∧ (ensureMoltbotGateway { verifiedExistingWorld with existingFetch := .ok 500, launchFetch := .ok 500 }).result =
        .error "Gateway started but not reachable via sandbox network (may be bound to loopback)" :=
  ⟨(ensure_never_returns_loopback { verifiedExistingWorld with existingFetch := .ok 500 }).1
      runningGatewayProc rfl rfl (Or.inr rfl),
    (ensure_never_returns_loopback { verifiedExistingWorld with existingFetch := .ok 500, launchFetch := .ok 500 }).2.1
      freshGatewayProc "" "" rfl rfl rfl (Or.inr rfl) rfl⟩

/-- C7 (code defect): when a newly launched gateway never opens its port
within the startup timeout, the error surfaced by `ensureMoltbotGateway` is
the original `waitForPort` error, not the constructed message carrying the
backend's stderr tail.  The code does build
``Moltbot gateway failed to start. Stderr: ...`` (line 327), but that `throw`
sits inside the `try` whose `catch (logErr)` (line 328) replaces it with
`throw e`, so the stderr tail never reaches the caller.  At this concrete
oracle the catch-path `getLogs` succeeds with non-empty stderr, yet the
surfaced message does not contain it.  (The outcome is still fatal for the
calling request and is not retried, as the claim says.) -/
theorem ensure_launch_timeout_drops_stderr :
    (ensureMoltbotGateway launchTimeoutWorld).result =
      .error "waitForPort: timed out after 20000 ms"
    ∧ (ensureMoltbotGateway launchTimeoutWorld).launchAttempted = true
    ∧ launchTimeoutWorld.launchLogsOnFailure = .ok "" "Error: listen EADDRNOTAVAIL"
    ∧ strIncludes "waitForPort: timed out after 20000 ms" "Error: listen EADDRNOTAVAIL" = false :=
  ⟨rfl, rfl, rfl, rfl⟩

/-- C8: discovery returns a process exactly when the listing contains an entry
whose command matches the gateway launch pattern, does not match the CLI deny
patterns, and has status `starting` or `running`; a thrown `listProcesses` is
treated as "no process found", and `ensureMoltbotGateway` then falls through
to the launch path. -/
theorem findExisting_discovery_spec :
    (∀ procs : List Proc,
        (findExistingMoltbotProcess (.ok procs)).isSome ↔
          ∃ p ∈ procs, isGatewayProcess p.command = true ∧ isCliCommand p.command = false ∧
            (p.status = .starting ∨ p.status = .running))
    ∧ (∀ errMsg, findExistingMoltbotProcess (.error errMsg) = none)
    ∧ (∀ w : SandboxWorld, ∀ errMsg, w.processes = .error errMsg →
        (ensureMoltbotGateway w).launchAttempted = true ∧
          (ensureMoltbotGateway w).killedExisting = false) := by
  refine ⟨?_, fun _ => rfl, ?_⟩
  · intro procs
    unfold findExistingMoltbotProcess
    rw [List.find?_isSome]
    constructor
    · rintro ⟨p, hp, hmatch⟩
      refine ⟨p, hp, ?_⟩
      simpa [moltbotProcMatch, and_assoc] using hmatch
    · rintro ⟨p, hp, h1, h2, h3⟩
      exact ⟨p, hp, by simp [moltbotProcMatch, h1, h2, h3]⟩
  · intro w errMsg hproc
    unfold ensureMoltbotGateway
    have hnone : findExistingMoltbotProcess w.processes = none := by rw [hproc]; rfl
    rw [hnone]
    exact ⟨launchGateway_launchAttempted w false, launchGateway_killedExisting w false⟩

/-- Witness for C8: a thrown `listProcesses` makes `ensureMoltbotGateway`
take the launch path without killing anything. -/
theorem findExisting_discovery_spec_witness :
    (ensureMoltbotGateway discoveryErrorWorld).launchAttempted = true ∧
      (ensureMoltbotGateway discoveryErrorWorld).killedExisting = false :=
  findExisting_discovery_spec.2.2 discoveryErrorWorld "listProcesses: internal error" rfl

/-- C10: on the launch path, returning the new process requires the
post-startup `getLogs` call to succeed: if the port opens but `getLogs`
throws, `ensureMoltbotGateway` throws that error instead of returning the
now-running process. -/
theorem ensure_launch_requires_logs (w : SandboxWorld) :
    (∀ q logsErr, w.startResult = .ok q → w.launchWait = .opened →
        w.launchLogs = .failed logsErr →
        (ensureMoltbotGateway w).launchAttempted = true →
        (ensureMoltbotGateway w).result = .error logsErr)
    ∧ (∀ q, (ensureMoltbotGateway w).result = .ok q →
        (ensureMoltbotGateway w).launchAttempted = true →
        ∃ stdout stderr, w.launchLogs = .ok stdout stderr) := by
  constructor
  · intro q logsErr hstart hwait hlogs hattempt
    rcases ensureMoltbotGateway_cases w with ⟨k, hk⟩ | ⟨p, _, heq, _⟩
    · rw [hk]
      exact launchGateway_logsFailed w k q logsErr hstart hwait hlogs
    · rw [heq] at hattempt
      simp at hattempt
  · intro q hok hattempt
    rcases ensureMoltbotGateway_cases w with ⟨k, hk⟩ | ⟨p, _, heq, _⟩
    · rw [hk] at hok
      exact launchGateway_ok_imp_logs w k q hok
    · rw [heq] at hattempt
      simp at hattempt

/-- Witness for C10: with the port open but `getLogs` throwing, the call
throws the `getLogs` error. -/
theorem ensure_launch_requires_logs_witness :
    (ensureMoltbotGateway logsFailWorld).result =
      .error "getLogs failed: container terminated" :=
  (ensure_launch_requires_logs logsFailWorld).1 freshGatewayProc
    "getLogs failed: container terminated" rfl rfl rfl rfl

/-- C3 counterexample: a frame that parses as JSON with type `"req"` and
method `"connect"` but whose `params` is a (truthy, non-object) string is
delivered to the backend *without* `params.auth` being set — the strict-mode
assignment `msg.params.auth = ...` throws on a primitive and the `catch`
falls back to forwarding `event.data` verbatim (and even in non-strict
semantics the assignment to a string primitive is a silent no-op, so no
`auth` member can appear).  The delivered bytes do not even contain the
substring `auth`, contradicting the claim for this frame. -/
theorem connect_rewrite_nonobject_params_cex :
    jsonParse "\x7b\"type\":\"req\",\"method\":\"connect\",\"params\":\"abc\"\x7d" =
      some (.obj [("type", .str "req"), ("method", .str "connect"), ("params", .str "abc")])
    ∧ handleClientFrame (some "S")
        (.str "\x7b\"type\":\"req\",\"method\":\"connect\",\"params\":\"abc\"\x7d") =
      .str "\x7b\"type\":\"req\",\"method\":\"connect\",\"params\":\"abc\"\x7d"
    ∧ strIncludes "\x7b\"type\":\"req\",\"method\":\"connect\",\"params\":\"abc\"\x7d" "auth" = false :=
  ⟨rfl, rfl, rfl⟩

/-- C3 (amended): when the gateway token secret is configured, every
client-to-backend string frame that parses as JSON with type `"req"` and
method `"connect"`, *and whose `params` member is absent, falsy, or itself a
JSON object*, is forwarded with `deviceId`, `devicePublicKey`, `signature`
and `device` removed from `params` and with `params.auth` set to exactly
`{token: <secret>}`. -/
theorem connect_rewrite_amended (token s : String) (msg : Json)
    (hparse : jsonParse s = some msg) (hconnect : isConnectJson msg = true)
    (hp : paramsRewritable msg = true) :
    ∃ params2 : Json,
      handleClientFrame (some token) (.str s) =
        .str (jsonStringify (setObjField msg "params" params2))
      ∧ getField params2 "auth" = some (connectAuthJson token)
      ∧ getField params2 "deviceId" = none
      ∧ getField params2 "devicePublicKey" = none
      ∧ getField params2 "signature" = none
      ∧ getField params2 "device" = none := by
  obtain ⟨fs0, hrw⟩ := rewriteConnect_shape token msg hp
  have hprops := stripMembers_props fs0 token
  refine ⟨.obj (setMember (stripMembers fs0) "auth" (connectAuthJson token)), ?_,
    hprops.1, hprops.2.1, hprops.2.2.1, hprops.2.2.2.1, hprops.2.2.2.2⟩
  simp [handleClientFrame, hparse, hconnect, hrw]

/-- Witness for C3 (amended) at the spec's scenario frame: the connect frame
with injected device identity and secret `"S"` is delivered with the device
fields gone and `auth = {token: "S"}`. -/
theorem connect_rewrite_amended_witness :
    ∃ params2 : Json,
      handleClientFrame (some "S")
          (.str "\x7b\"type\":\"req\",\"method\":\"connect\",\"params\":\x7b\"deviceId\":\"x\",\"signature\":\"y\"\x7d\x7d") =
        .str (jsonStringify (setObjField
          (.obj [("type", .str "req"), ("method", .str "connect"),
            ("params", .obj [("deviceId", .str "x"), ("signature", .str "y")])])
          "params" params2))
      ∧ getField params2 "auth" = some (connectAuthJson "S")
      ∧ getField params2 "deviceId" = none
      ∧ getField params2 "devicePublicKey" = none
      ∧ getField params2 "signature" = none
      ∧ getField params2 "device" = none :=
  connect_rewrite_amended "S"
    "\x7b\"type\":\"req\",\"method\":\"connect\",\"params\":\x7b\"deviceId\":\"x\",\"signature\":\"y\"\x7d\x7d"
    (.obj [("type", .str "req"), ("method", .str "connect"),
      ("params", .obj [("deviceId", .str "x"), ("signature", .str "y")])])
    rfl rfl rfl

/-- C4 counterexample: the client-to-backend listener has no "first frame
only" state — a connect frame arriving *after* another connect frame is still
mutated, not forwarded verbatim.  Here the second element of the relayed
sequence differs from the second input frame. -/
theorem relay_second_connect_frame_mutated_cex :
    (relayClientFrames (some "S")
        [.str "\x7b\"type\":\"req\",\"method\":\"connect\",\"params\":\x7b\"deviceId\":\"x\"\x7d\x7d",
         .str "\x7b\"type\":\"req\",\"method\":\"connect\",\"params\":\x7b\"deviceId\":\"x\"\x7d\x7d"])[1]? ≠
      some (.str "\x7b\"type\":\"req\",\"method\":\"connect\",\"params\":\x7b\"deviceId\":\"x\"\x7d\x7d") := by
  decide

/-- C4 (amended): in the client-to-backend direction, *every* frame
recognised as a connect request is subject to the rewrite (not only the
first); every frame that is not a recognised connect request — non-connect
JSON frames, unparseable string frames, binary frames, and every frame when
no token is configured — is forwarded verbatim, and the relay preserves
length and per-index order (frame `i` out corresponds to frame `i` in). -/
theorem relay_client_frames_amended (token : Option String) (frames : List WireFrame) :
    (relayClientFrames token frames).length = frames.length
    ∧ (∀ i : Nat, (relayClientFrames token frames)[i]? =
        frames[i]?.map (handleClientFrame token))
    ∧ (∀ b, handleClientFrame token (.bin b) = .bin b)
    ∧ (∀ s, jsonParse s = none → handleClientFrame token (.str s) = .str s)
    ∧ (∀ s msg, jsonParse s = some msg → isConnectJson msg = false →
        handleClientFrame token (.str s) = .str s)
    ∧ (∀ f, handleClientFrame none f = f) := by
  refine ⟨List.length_map _ _, fun i => List.getElem?_map _ _ _, ?_, ?_, ?_, ?_⟩
  · intro b
    cases token <;> rfl
  · intro s hs
    cases token with
    | none => rfl
    | some t => simp [handleClientFrame, hs]
  · intro s msg hs hc
    cases token with
    | none => rfl
    | some t => simp [handleClientFrame, hs, hc]
  · intro f
    cases f <;> rfl

/-- Witness for C4 (amended): binary and unparseable frames pass through
verbatim at a concrete token. -/
theorem relay_client_frames_amended_witness :
    (relayClientFrames (some "S") [.bin [7, 8], .str "niet json"]).length = 2
    ∧ handleClientFrame (some "S") (.bin [7, 8]) = .bin [7, 8]
    ∧ handleClientFrame (some "S") (.str "niet json") = .str "niet json" :=
  ⟨(relay_client_frames_amended (some "S") [.bin [7, 8], .str "niet json"]).1,
    (relay_client_frames_amended (some "S") [.bin [7, 8], .str "niet json"]).2.2.1 [7, 8],
    (relay_client_frames_amended (some "S") [.bin [7, 8], .str "niet json"]).2.2.2.1
      "niet json" rfl⟩

/-- C5: every backend-to-client string frame that parses as JSON and carries
a nested non-empty string `error.message` is forwarded with the message text
rewritten through `transformErrorMessage`; message text matching no pattern
is left unchanged by the table; unparseable frames, frames without an
`error` member, and binary frames pass through unmodified. -/
theorem container_error_rewrite (host : String) :
    (∀ s parsed errVal m, jsonParse s = some parsed →
        getField parsed "error" = some errVal →
        getField errVal "message" = some (.str m) → m ≠ "" →
        handleContainerFrame host (.str s) =
          .str (jsonStringify (setObjField parsed "error"
            (setObjField errVal "message" (.str (transformErrorMessage m host))))))
    ∧ (∀ m, strIncludes m "gateway token missing" = false →
        strIncludes m "gateway token mismatch" = false →
        strIncludes m "pairing required" = false →
        transformErrorMessage m host = m)
    ∧ (∀ s, jsonParse s = none → handleContainerFrame host (.str s) = .str s)
    ∧ (∀ s parsed, jsonParse s = some parsed → getField parsed "error" = none →
        handleContainerFrame host (.str s) = .str s)
    ∧ (∀ b, handleContainerFrame host (.bin b) = .bin b) := by
  refine ⟨?_, ?_, ?_, ?_, fun b => rfl⟩
  · intro s parsed errVal m hs he hm hne
    simp [handleContainerFrame, hs, he, hm, hne]
  · intro m h1 h2 h3
    simp [transformErrorMessage, h1, h2, h3]
  · intro s hs
    simp [handleContainerFrame, hs]
  · intro s parsed hs he
    simp [handleContainerFrame, hs, he]

/-- Witness for C5 at the spec's scenario: `gateway token mismatch` is
replaced by the access-token hint, and non-matching error text passes
through with its text unchanged. -/
theorem container_error_rewrite_witness :
    handleContainerFrame "example.com"
        (.str "\x7b\"error\":\x7b\"message\":\"gateway token mismatch\"\x7d\x7d") =
      .str "\x7b\"error\":\x7b\"message\":\"Invalid or missing token. Visit https://example.com?token=\x7bREPLACE_WITH_YOUR_TOKEN\x7d\"\x7d\x7d"
    ∧ handleContainerFrame "example.com"
        (.str "\x7b\"error\":\x7b\"message\":\"some other error\"\x7d\x7d") =
      .str "\x7b\"error\":\x7b\"message\":\"some other error\"\x7d\x7d" := by
  constructor
  · have h := (container_error_rewrite "example.com").1
      "\x7b\"error\":\x7b\"message\":\"gateway token mismatch\"\x7d\x7d"
      (.obj [("error", .obj [("message", .str "gateway token mismatch")])])
      (.obj [("message", .str "gateway token mismatch")])
      "gateway token mismatch" rfl rfl rfl (by decide)
    exact h.trans rfl
  · have h := (container_error_rewrite "example.com").1
      "\x7b\"error\":\x7b\"message\":\"some other error\"\x7d\x7d"
      (.obj [("error", .obj [("message", .str "some other error")])])
      (.obj [("message", .str "some other error")])
      "some other error" rfl rfl rfl (by decide)
    exact h.trans rfl

/-- C6 counterexample: closing the *client* leg forwards the reason verbatim
to the backend leg — it is not passed through the substitution table, even
for a reason the table would rewrite — contradicting the claim's "in both
directions". -/
theorem client_close_reason_not_transformed_cex :
    serverCloseHandler (1000, "pairing required") = (1000, "pairing required")
    ∧ transformErrorMessage "pairing required" "example.com" ≠ "pairing required" :=
  ⟨rfl, by decide⟩

/-- C6 (amended): closing the client leg closes the backend leg with the
code and reason forwarded verbatim; closing the backend leg closes the
client leg with the code preserved and the reason passed through the
substitution table and capped at the 123-character transport limit; an error
event on either leg closes the other with the fixed abnormal-closure code
1011. -/
theorem relay_close_propagation (host : String) (code : Nat) (reason : String) :
    serverCloseHandler (code, reason) = (code, reason)
    ∧ containerCloseHandler host (code, reason) =
        (code, truncateReason (transformErrorMessage reason host))
    ∧ (truncateReason (transformErrorMessage reason host)).length ≤ 123
    ∧ serverErrorHandler = (1011, "Client error")
    ∧ containerErrorHandler = (1011, "Container error") :=
  ⟨rfl, rfl, truncateReason_length_le _, rfl, rfl⟩

end Moltworker
